import Mathlib

/-!
Verification of the Frank RTL flight-mode controller
(`src/ArduCopter/mode_frank.cpp`).

The controller is single-threaded and tick-driven; every external
collaborator (waypoint navigation, position/attitude control, terrain,
fence, rally, failsafe flags, clocks) is modelled as an input supplied to
each operation.  Machine integers (`int32_t` altitudes in centimeters) are
modelled as `Int`; the C++ `float` quantities that enter the altitude
pipeline (cone slope, distances, fence altitude) are modelled as `ℚ`, with
an explicit truncation-toward-zero at every point where the source assigns
a float expression back into an `int32_t`.
-/

namespace Frank

/-- Altitude frames used by the return target (`Location::AltFrame`).
The absolute frame only appears before the conversion step of
`compute_return_target`; post-conversion values are supplied by the
environment, so only the two result frames are modelled. -/
inductive AltFrame
  | ABOVE_HOME
  | ABOVE_TERRAIN
deriving DecidableEq, Repr

/-- Truncation toward zero, the conversion applied when C++ assigns a
`float` expression into an `int32_t` variable. -/
def ftrunc (q : ℚ) : Int :=
  if q < 0 then -(Int.floor (-q)) else Int.floor q

/-- Modelled from the spec: `RTL_ALT_MIN` is the "system-defined absolute
minimum" RTL altitude; it is a configuration constant of the surrounding
ArduCopter tree (not part of `src/`), 200 cm. -/
def RTL_ALT_MIN : Int := 200

/-- Modelled from the spec: `RTL_ABS_MIN_CLIMB`, the "absolute_min_climb"
used by the cone-slope clamp; configuration constant of the surrounding
ArduCopter tree (not part of `src/`), 250 cm. -/
def RTL_ABS_MIN_CLIMB : Int := 250

/-- Modelled from the spec: `RTL_MIN_CONE_SLOPE`, the smallest cone slope
for which the cone clamp is applied ("don't allow really shallow slopes");
configuration constant of the surrounding ArduCopter tree (not part of
`src/`). -/
def RTL_MIN_CONE_SLOPE : ℚ := mkRat 1 2

/-- External inputs of the fence-clamping step of `compute_return_target`
(lines 546-562): whether the altitude fence is enabled, whether the
conversion of the stored (possibly above-terrain) altitude to the
above-home frame succeeds, the terrain-height offset that conversion adds,
and the fence ceiling `fence.get_safe_alt_max() * 100.0f` (a float). -/
structure FenceEnv where
  enabled : Bool
  conv_ok : Bool
  terr_home_offset : Int
  fence_alt : ℚ
deriving DecidableEq, Repr

/-- The fence-clamping step of `compute_return_target` (lines 546-562).
`alt` is the stored return-target altitude in `frame`.  Converting an
above-home altitude to above-home always succeeds and is the identity;
converting an above-terrain altitude needs terrain data (`conv_ok`) and
adds the terrain-height-above-home offset.  When the converted value
exceeds the fence ceiling, the stored altitude is reduced by the overage
(`rtl_path.return_target.alt -= (target_alt - fence_alt)`, float math
truncated back into the int32 field). -/
def fence_step (frame : AltFrame) (alt : Int) (e : FenceEnv) : Int :=
  if e.enabled = true then
    if frame = AltFrame.ABOVE_HOME then
      if e.fence_alt < (alt : ℚ) then
        ftrunc ((alt : ℚ) - ((alt : ℚ) - e.fence_alt))
      else alt
    else
      if e.conv_ok = true then
        if e.fence_alt < ((alt + e.terr_home_offset : Int) : ℚ) then
          ftrunc ((alt : ℚ) - (((alt + e.terr_home_offset : Int) : ℚ) - e.fence_alt))
        else alt
      else alt
  else alt

/-- External inputs of `build_path` / `compute_return_target`.  The
`Location` frame conversions depend on the home and terrain providers, so
the environment supplies each conversion's success flag and converted
value directly. -/
structure BuildEnv where
  /-- `copter.current_loc.alt` (above home). -/
  curr_loc_alt : Int
  /-- `copter.terrain_use()`. -/
  terrain_use : Bool
  /-- `rtl_path.origin_point.get_alt_cm(ABOVE_TERRAIN, _)` succeeds. -/
  origin_terr_ok : Bool
  /-- `rtl_path.return_target.get_alt_cm(ABOVE_TERRAIN, _)` succeeds. -/
  return_terr_ok : Bool
  /-- `copter.current_loc.get_alt_cm(ABOVE_TERRAIN, curr_alt)` succeeds. -/
  curr_terr_ok : Bool
  /-- the above-terrain current altitude written by that lookup. -/
  curr_alt_terr : Int
  /-- `return_target.change_alt_frame(ABOVE_TERRAIN)` succeeds. -/
  conv_terr_ok : Bool
  /-- the return target's altitude in the above-terrain frame. -/
  ret_alt_terr : Int
  /-- `return_target.change_alt_frame(ABOVE_HOME)` succeeds. -/
  conv_home_ok : Bool
  /-- the return target's altitude in the above-home frame. -/
  ret_alt_home : Int
  /-- `g.rtl_climb_min`. -/
  rtl_climb_min : Int
  /-- `g.rtl_altitude`. -/
  rtl_altitude : Int
  /-- `g.rtl_cone_slope` (float parameter). -/
  rtl_cone_slope : ℚ
  /-- `return_target.get_distance(origin_point) * 100.0f`. -/
  return_dist_cm : ℚ
  fence : FenceEnv
  /-- `g.rtl_alt_final`. -/
  rtl_alt_final : Int
deriving DecidableEq, Repr

/-- Result of `compute_return_target`: the fields of
`rtl_path.return_target` it writes, plus the terrain-used flag and the
terrain-data-missing log event.  `alt_policy` exposes the intermediate
altitude produced by the documented policy pipeline (raw floor, min-climb
raise, RTL-altitude raise, cone clamp, fence clamp) immediately before the
source's final write `rtl_path.return_target.alt = 700;` (line 566);
`alt` is the value actually stored. -/
structure RTResult where
  terrain_used : Bool
  frame : AltFrame
  alt : Int
  alt_policy : Int
  logged_terrain_missing : Bool
deriving DecidableEq, Repr

/-- `ModeFrank::compute_return_target` (lines 492-567), as a function of
its external inputs and the activation flag `terrain_following_allowed`. -/
def compute_return_target (e : BuildEnv) (tfa : Bool) : RTResult :=
  -- curr_alt is current altitude above home or above terrain
  let curr_alt0 := e.curr_loc_alt
  -- decide if we should use terrain altitudes
  let tu0 := e.terrain_use && tfa
  -- attempt to retrieve terrain alt for current location, stopping point and origin
  let lookups_ok := e.origin_terr_ok && e.return_terr_ok && e.curr_terr_ok
  let logged := tu0 && !lookups_ok
  let curr_alt := if tu0 && lookups_ok then e.curr_alt_terr else curr_alt0
  let tu1 := tu0 && lookups_ok
  -- convert return-target alt to alt-above-home or alt-above-terrain
  let useTerr := tu1 && e.conv_terr_ok
  let ralt := if useTerr then e.ret_alt_terr
              else if e.conv_home_ok then e.ret_alt_home else 0
  let frame := if useTerr then AltFrame.ABOVE_TERRAIN else AltFrame.ABOVE_HOME
  -- ignore negative altitudes
  let t0 := max ralt 0
  -- increase target to maximum of current altitude + climb_min and rtl altitude
  let t1 := max t0 (curr_alt + max 0 e.rtl_climb_min)
  let t2 := max t1 (max e.rtl_altitude RTL_ALT_MIN)
  -- reduce climb if close to return target (cone-slope clamp, float math)
  let t3 := if RTL_MIN_CONE_SLOPE ≤ e.rtl_cone_slope then
      ftrunc (max (curr_alt : ℚ) (min (t2 : ℚ)
        (max (e.return_dist_cm * e.rtl_cone_slope) ((curr_alt : ℚ) + (RTL_ABS_MIN_CLIMB : ℚ)))))
    else t2
  -- ensure not above fence altitude if alt fence is enabled
  let altFence := fence_step frame t3 e.fence
  -- final write of the source: rtl_path.return_target.alt = 700;
  { terrain_used := useTerr
    frame := frame
    alt := 700
    alt_policy := altFence
    logged_terrain_missing := logged }

/-- Phases of the RTL state machine (`RTLState` values of `ModeFrank`). -/
inductive FrankState
  | Frank_Starting
  | Frank_InitialClimb
  | Frank_ReturnHome
  | Frank_LoiterAtHome
  | Frank_FinalDescent
  | Frank_Land
deriving DecidableEq, Repr

/-- The `rtl_path` aggregate (the fields this file reads or writes). -/
structure RTLPath where
  return_target_alt : Int
  return_target_frame : AltFrame
  descent_target_alt : Int
  land : Bool
  terrain_used : Bool
deriving DecidableEq, Repr

/-- Controller state owned by the `ModeFrank` instance.  `wp_dest` is the
argument of the most recent `wp_nav->set_wp_destination` call (the
destination pushed to the external navigation controller); it is part of
the model because the sequencer claims speak about it. -/
structure FrankData where
  _state : FrankState
  _state_complete : Bool
  terrain_following_allowed : Bool
  start_time_ms : Nat
  mission_index : Int
  mission_completed : Bool
  _loiter_start_time : Nat
  rtl_path : RTLPath
  wp_dest : Int × Int × Int
deriving DecidableEq, Repr

/-- Per-tick external inputs consumed by `run` and the phase handlers. -/
structure TickInput where
  /-- `motors->armed()`. -/
  armed : Bool
  /-- `is_disarmed_or_landed()`. -/
  disarmed_or_landed : Bool
  /-- `wp_nav->reached_wp_destination()`. -/
  reached : Bool
  /-- `millis()` / `AP_HAL::millis()` this tick. -/
  now : Nat
  /-- `copter.failsafe.radio`. -/
  radio_failsafe : Bool
  /-- result of `wp_nav->set_wp_destination` in a phase-entry routine. -/
  set_dest_ok : Bool
  /-- `(uint32_t)g.rtl_loiter_time.get()`. -/
  rtl_loiter_time : Nat
  /-- `auto_yaw.mode() == AUTO_YAW_RESETTOARMEDYAW` during loiter. -/
  yaw_mode_is_resettoarmedyaw : Bool
  /-- heading within 2 degrees of `copter.initial_armed_bearing`. -/
  yaw_within_2deg_of_armed : Bool
  /-- `copter.ap.land_complete`. -/
  land_complete : Bool
  /-- `copter.current_loc.alt` during the final descent. -/
  curr_loc_alt : Int
  /-- inputs of `build_path` when the Starting phase is dispatched. -/
  env : BuildEnv
deriving DecidableEq, Repr

/-- `millis() - start_time_ms` in `uint32_t` arithmetic (both operands are
monotonic millisecond counts reduced mod 2^32 by the hardware clock). -/
def elapsed_ms (start now : Nat) : Nat :=
  (now - start) % 4294967296

/-- The scripted waypoint table written by `build_path` (lines 464-477):
forward/right/up offsets in centimeters.  Indices outside 0..13 are never
accessed by the reachable code (out-of-range access would be undefined in
the source); the model maps them to the repeated holding offset. -/
def mission_wp (i : Int) : Int × Int × Int :=
  if i = 0 then (0, 0, 200)
  else if i = 1 then (500, 0, 200)
  else if i = 2 then (0, 0, 700)
  else if i = 3 then (0, 0, 200)
  else if i = 4 then (300, 0, 500)
  else if i = 5 then (0, 0, 800)
  else if i = 6 then (-300, 0, 500)
  else if i = 7 then (0, 0, 200)
  else if i = 8 then (0, 0, 200)
  else if i = 9 then (0, 0, 200)
  else if i = 10 then (0, 0, 200)
  else if i = 11 then (0, 0, 200)
  else if i = 12 then (0, 0, 200)
  else if i = 13 then (0, 0, 200)
  else (0, 0, 200)

/-- `ModeFrank::init` (lines 13-26).  Returns `none` when the mode refuses
to start (`return false`), otherwise the updated state.  The calls to
`wp_nav->wp_and_spline_init()` are external. -/
def init (ignore_checks home_is_set terrain_failsafe : Bool) (now : Nat)
    (s : FrankData) : Option FrankData :=
  if ignore_checks = false ∧ home_is_set = false then none
  else some { s with
    _state := FrankState.Frank_Starting
    _state_complete := true
    terrain_following_allowed := !terrain_failsafe
    start_time_ms := now }

/-- `ModeFrank::restart_without_terrain` (lines 29-37).  The second
component records whether the operator notification
(`gcs().send_text(MAV_SEVERITY_CRITICAL, ...)`) was emitted.  The
`Write_Error(NAVIGATION, RESTARTED_RTL)` at the top of the function goes
unconditionally to the external dataflash logger, not to the operator
channel. -/
def restart_without_terrain (s : FrankData) : FrankData × Bool :=
  if s.rtl_path.terrain_used = true then
    ({ s with
        terrain_following_allowed := false
        _state := FrankState.Frank_Starting
        _state_complete := true }, true)
  else (s, false)

/-- `ModeFrank::build_path` (lines 444-487).  The origin/climb-target
`Location` writes only feed external collaborators; the fields the claims
read are the return target, the descent target altitude (the literal 700
of line 482) and the `land` flag. -/
def build_path (e : BuildEnv) (s : FrankData) : FrankData :=
  let r := compute_return_target e s.terrain_following_allowed
  { s with rtl_path := {
      return_target_alt := r.alt
      return_target_frame := r.frame
      descent_target_alt := 700
      land := decide (e.rtl_alt_final ≤ 0)
      terrain_used := r.terrain_used } }

/-- `ModeFrank::climb_start` (lines 109-135).  The destination
`mission_wp[0]` is pushed first; on rejection the function logs, requests
a LAND mode change (both external) and returns before `mission_index = 0`
is executed. -/
def climb_start (i : TickInput) (s : FrankData) : FrankData :=
  let s1 := { s with
    _state := FrankState.Frank_InitialClimb
    _state_complete := false
    wp_dest := mission_wp 0 }
  if i.set_dest_ok = false then s1
  else { s1 with mission_index := 0 }

/-- `ModeFrank::return_start` (lines 138-154).  Pushes `mission_wp[12]`;
on rejection calls `restart_without_terrain`; in either case
`mission_index = 13` executes afterwards. -/
def return_start (i : TickInput) (s : FrankData) : FrankData :=
  let s1 := { s with
    _state := FrankState.Frank_ReturnHome
    _state_complete := false
    wp_dest := mission_wp 12 }
  let s2 := if i.set_dest_ok = false then (restart_without_terrain s1).1 else s1
  { s2 with mission_index := 13 }

/-- `ModeFrank::climb_return_run` (lines 158-222): the waypoint sequencer
and dwell policy.  Attitude/position setpoint delegation is external. -/
def climb_return_run (i : TickInput) (s : FrankData) : FrankData :=
  if i.disarmed_or_landed = true then s
  else
    let s1 :=
      if s.mission_index < 13 ∧ i.reached = true then
        { s with
            mission_index := s.mission_index + 1
            wp_dest := mission_wp (s.mission_index + 1) }
      else if 13 ≤ s.mission_index ∧ i.reached = true then
        if 180000 < elapsed_ms s.start_time_ms i.now then
          { s with mission_completed := true }
        else s
      else s
    { s1 with _state_complete := i.reached && s1.mission_completed }

/-- `ModeFrank::loiterathome_start` (lines 225-237). -/
def loiterathome_start (i : TickInput) (s : FrankData) : FrankData :=
  { s with
    _state := FrankState.Frank_LoiterAtHome
    _state_complete := false
    _loiter_start_time := i.now }

/-- `ModeFrank::loiterathome_run` (lines 241-295). -/
def loiterathome_run (i : TickInput) (s : FrankData) : FrankData :=
  if i.disarmed_or_landed = true then s
  else if i.rtl_loiter_time ≤ elapsed_ms s._loiter_start_time i.now then
    if i.yaw_mode_is_resettoarmedyaw = true then
      if i.yaw_within_2deg_of_armed = true then { s with _state_complete := true }
      else s
    else { s with _state_complete := true }
  else s

/-- `ModeFrank::descent_start` (lines 298-310). -/
def descent_start (s : FrankData) : FrankData :=
  { s with _state := FrankState.Frank_FinalDescent, _state_complete := false }

/-- `ModeFrank::descent_run` (lines 314-379): completion when within
20 cm of the descent target (`labs(... ) < 20`). -/
def descent_run (i : TickInput) (s : FrankData) : FrankData :=
  if i.disarmed_or_landed = true then s
  else
    let reached_final := decide ((s.rtl_path.descent_target_alt - i.curr_loc_alt).natAbs < 20)
    { s with _state_complete := reached_final }

/-- `ModeFrank::land_start` (lines 382-397). -/
def land_start (s : FrankData) : FrankData :=
  { s with _state := FrankState.Frank_Land, _state_complete := false }

/-- `ModeFrank::land_run` (lines 417-442).  `_state_complete` mirrors the
landed signal before the disarm guard runs; disarming itself is an
external effect. -/
def land_run (i : TickInput) (s : FrankData) : FrankData :=
  let s1 := { s with _state_complete := i.land_complete }
  if i.disarmed_or_landed = true then s1 else s1

/-- The phase-completion dispatch switch of `ModeFrank::run`
(lines 48-74). -/
def dispatch (i : TickInput) (s : FrankData) : FrankData :=
  match s._state with
  | FrankState.Frank_Starting => climb_start i (build_path i.env s)
  | FrankState.Frank_InitialClimb => return_start i s
  | FrankState.Frank_ReturnHome => loiterathome_start i s
  | FrankState.Frank_LoiterAtHome =>
      if s.rtl_path.land = true ∨ i.radio_failsafe = true then land_start s
      else descent_start s
  | FrankState.Frank_FinalDescent => s
  | FrankState.Frank_Land => s

/-- The behavior switch of `ModeFrank::run` (lines 77-104).  The Starting
case assigns `_state = Frank_InitialClimb` and falls through into
`climb_return_run`. -/
def behave (i : TickInput) (s : FrankData) : FrankData :=
  match s._state with
  | FrankState.Frank_Starting =>
      climb_return_run i { s with _state := FrankState.Frank_InitialClimb }
  | FrankState.Frank_InitialClimb => climb_return_run i s
  | FrankState.Frank_ReturnHome => climb_return_run i s
  | FrankState.Frank_LoiterAtHome => loiterathome_run i s
  | FrankState.Frank_FinalDescent => descent_run i s
  | FrankState.Frank_Land => land_run i s

/-- `ModeFrank::run` (lines 41-105): armed guard, completion dispatch,
then the current phase's behavior handler. -/
def run (i : TickInput) (s : FrankData) : FrankData :=
  if i.armed = true then
    behave i (if s._state_complete = true then dispatch i s else s)
  else s

/-- One externally-triggered operation on the controller instance. -/
inductive Op
  | opInit (ignore_checks home_is_set terrain_failsafe : Bool) (now : Nat)
  | opRun (i : TickInput)
  | opRestart
deriving DecidableEq, Repr

/-- Apply one operation; a refused `init` leaves the state unchanged. -/
def applyOp (s : FrankData) (op : Op) : FrankData :=
  match op with
  | Op.opInit ig home tf now => (init ig home tf now s).getD s
  | Op.opRun i => run i s
  | Op.opRestart => (restart_without_terrain s).1

/-- Apply a sequence of operations. -/
def applyAll (s : FrankData) (ops : List Op) : FrankData :=
  ops.foldl applyOp s

/-- A run tick that enters the climb phase: the dispatch switch is taken
from a completed Starting phase, so `build_path` and `climb_start`
execute. -/
def climb_entry (s : FrankData) (op : Op) : Prop :=
  match op with
  | Op.opRun i =>
      i.armed = true ∧ s._state = FrankState.Frank_Starting ∧
        s._state_complete = true
  | _ => False

/-! Concrete inputs used by counterexamples and witnesses. -/

/-- A fence environment that is disabled (used as a neutral default). -/
def fence_off : FenceEnv :=
  { enabled := false, conv_ok := false, terr_home_offset := 0, fence_alt := 0 }

/-- A return-target environment with terrain and fence disabled: current
altitude 300 cm, minimum climb 100 cm, configured RTL altitude 500 cm,
cone slope 0 (below the minimum slope, so the cone clamp is skipped). -/
def env0 : BuildEnv :=
  { curr_loc_alt := 300, terrain_use := false
    origin_terr_ok := false, return_terr_ok := false, curr_terr_ok := false
    curr_alt_terr := 0, conv_terr_ok := false, ret_alt_terr := 0
    conv_home_ok := true, ret_alt_home := 0
    rtl_climb_min := 100, rtl_altitude := 500
    rtl_cone_slope := 0, return_dist_cm := 0
    fence := fence_off, rtl_alt_final := 0 }

/-- `env0` at current altitude 1000 cm with minimum climb 200 cm: the
policy pipeline yields 1200 cm, strictly above the hardcoded 700. -/
def envC1 : BuildEnv := { env0 with curr_loc_alt := 1000, rtl_climb_min := 200 }

/-- A fence environment for a path in the above-terrain frame: the return
point's terrain is 101 m above home and the fence ceiling is 100 m. -/
def fenvC9 : FenceEnv :=
  { enabled := true, conv_ok := true, terr_home_offset := 10100, fence_alt := 10000 }

/-- A default tick: armed, airborne, destination reached, every external
request accepted, no failsafe. -/
def tick0 : TickInput :=
  { armed := true, disarmed_or_landed := false, reached := true, now := 0
    radio_failsafe := false, set_dest_ok := true, rtl_loiter_time := 0
    yaw_mode_is_resettoarmedyaw := false, yaw_within_2deg_of_armed := false
    land_complete := false, curr_loc_alt := 0, env := env0 }

/-- A freshly constructed controller instance (all latches clear). -/
def frank0 : FrankData :=
  { _state := FrankState.Frank_Starting, _state_complete := false
    terrain_following_allowed := true, start_time_ms := 0
    mission_index := 0, mission_completed := false, _loiter_start_time := 0
    rtl_path := { return_target_alt := 0, return_target_frame := AltFrame.ABOVE_HOME
                  descent_target_alt := 0, land := false, terrain_used := false }
    wp_dest := (0, 0, 0) }

/-- An InitialClimb state whose waypoint cursor sits at index 12. -/
def sC4 : FrankData :=
  { frank0 with _state := FrankState.Frank_InitialClimb, mission_index := 12 }

/-- An InitialClimb state holding at the final waypoint (cursor 13), dwell
latch clear. -/
def sC3w : FrankData :=
  { frank0 with _state := FrankState.Frank_InitialClimb, mission_index := 13 }

/-- The dwell-expired tick used as the C3 witness input. -/
def iC3w : TickInput := { tick0 with now := 190000 }

/-- A completed LoiterAtHome state whose path requests landing. -/
def sC6 : FrankData :=
  { frank0 with
    _state := FrankState.Frank_LoiterAtHome
    _state_complete := true
    rtl_path := { frank0.rtl_path with land := true } }

/-- An InitialClimb state whose `mission_completed` latch is already set
(as left behind by an earlier activation that satisfied the dwell). -/
def sC10 : FrankData :=
  { frank0 with _state := FrankState.Frank_InitialClimb, mission_completed := true }

/-- A full reachable history: first activation at t=0, thirteen reached
ticks walking the cursor 0→13, a dwell-satisfying tick at t=190000 (sets
the `mission_completed` latch and completes the phase), then a second
activation at t=200000 and one reached tick 100 ms later. -/
def opsC3 : List Op :=
  [Op.opInit false true false 0] ++
  (List.range 13).map (fun k => Op.opRun { tick0 with now := 1000 * (k + 1) }) ++
  [Op.opRun { tick0 with now := 190000 },
   Op.opInit false true false 200000,
   Op.opRun { tick0 with now := 200100 }]

/-! Helper lemmas about float truncation. -/

/-- Truncation toward zero never exceeds an integer bound that the
rational already respects. -/
theorem ftrunc_le_intCast {q : ℚ} {a : ℤ} (h : q ≤ (a : ℚ)) : ftrunc q ≤ a := by
  unfold ftrunc
  split
  · have h1 : (⌈q⌉ : ℤ) ≤ a := Int.ceil_le.mpr h
    have h2 : ⌊-q⌋ = -⌈q⌉ := Int.floor_neg
    omega
  · have h1 : ⌊q⌋ ≤ ⌊(a : ℚ)⌋ := Int.floor_le_floor h
    simpa using h1

/-- Truncation toward zero preserves non-negativity. -/
theorem ftrunc_nonneg {q : ℚ} (h : 0 ≤ q) : 0 ≤ ftrunc q := by
  unfold ftrunc
  split
  · linarith
  · exact Int.floor_nonneg.mpr h

/-- Truncation toward zero is the identity on integers. -/
theorem ftrunc_intCast (n : ℤ) : ftrunc (n : ℚ) = n := by
  unfold ftrunc
  split
  · next h =>
      have : (((-n : ℤ)) : ℚ) = -(n : ℚ) := by push_cast; ring
      rw [← this, Int.floor_intCast]
      ring
  · exact Int.floor_intCast n

/-! Projection lemmas: which state fields each handler can touch. -/

/-- The sequencer never changes the phase tag. -/
theorem climb_return_run_state (i : TickInput) (s : FrankData) :
    (climb_return_run i s)._state = s._state := by
  unfold climb_return_run
  repeat' split
  all_goals rfl

/-- The sequencer never changes the activation time. -/
theorem climb_return_run_start_time (i : TickInput) (s : FrankData) :
    (climb_return_run i s).start_time_ms = s.start_time_ms := by
  unfold climb_return_run
  repeat' split
  all_goals rfl

/-- The sequencer either keeps the cursor or advances it by one from
below 13. -/
theorem climb_return_run_index (i : TickInput) (s : FrankData) :
    (climb_return_run i s).mission_index = s.mission_index ∨
      ((climb_return_run i s).mission_index = s.mission_index + 1 ∧
        s.mission_index < 13) := by
  unfold climb_return_run
  split
  · exact Or.inl rfl
  · split
    · next hA => exact Or.inr ⟨rfl, hA.1⟩
    · split
      · split
        · exact Or.inl rfl
        · exact Or.inl rfl
      · exact Or.inl rfl

/-- The sequencer only ever raises the `mission_completed` latch. -/
theorem climb_return_run_mc (i : TickInput) (s : FrankData)
    (h : s.mission_completed = true) :
    (climb_return_run i s).mission_completed = true := by
  unfold climb_return_run
  repeat' split
  all_goals first | exact h | rfl

/-- The loiter handler only touches `_state_complete`. -/
theorem loiterathome_run_frame (i : TickInput) (s : FrankData) :
    (loiterathome_run i s)._state = s._state ∧
      (loiterathome_run i s).mission_index = s.mission_index ∧
      (loiterathome_run i s).mission_completed = s.mission_completed := by
  unfold loiterathome_run
  repeat' split
  all_goals exact ⟨rfl, rfl, rfl⟩

/-- The descent handler only touches `_state_complete`. -/
theorem descent_run_frame (i : TickInput) (s : FrankData) :
    (descent_run i s)._state = s._state ∧
      (descent_run i s).mission_index = s.mission_index ∧
      (descent_run i s).mission_completed = s.mission_completed := by
  unfold descent_run
  repeat' split
  all_goals exact ⟨rfl, rfl, rfl⟩

/-- The landing handler only touches `_state_complete`. -/
theorem land_run_frame (i : TickInput) (s : FrankData) :
    (land_run i s)._state = s._state ∧
      (land_run i s).mission_index = s.mission_index ∧
      (land_run i s).mission_completed = s.mission_completed := by
  unfold land_run
  repeat' split
  all_goals exact ⟨rfl, rfl, rfl⟩

/-- `build_path` stores `land` iff the configured final altitude is
non-positive. -/
theorem build_path_land (e : BuildEnv) (s : FrankData) :
    (build_path e s).rtl_path.land = true ↔ e.rtl_alt_final ≤ 0 := by
  show decide (e.rtl_alt_final ≤ 0) = true ↔ e.rtl_alt_final ≤ 0
  exact ⟨of_decide_eq_true, decide_eq_true⟩

/-- `climb_start` leaves the cursor alone on a rejected destination and
resets it to 0 otherwise. -/
theorem climb_start_index (i : TickInput) (s : FrankData) :
    (climb_start i s).mission_index = 0 ∨
      (climb_start i s).mission_index = s.mission_index := by
  unfold climb_start
  split
  · exact Or.inr rfl
  · exact Or.inl rfl

/-- On an accepted destination, `climb_start` resets the cursor to 0. -/
theorem climb_start_index_zero (i : TickInput) (s : FrankData)
    (h : i.set_dest_ok = true) : (climb_start i s).mission_index = 0 := by
  unfold climb_start
  rw [h, if_neg (by simp)]

/-- `return_start` always leaves the cursor at 13. -/
theorem return_start_index (i : TickInput) (s : FrankData) :
    (return_start i s).mission_index = 13 := rfl

/-- Neither `climb_start`, `return_start`, `build_path` nor the other
phase-entry routines touch the `mission_completed` latch. -/
theorem dispatch_mc (i : TickInput) (s : FrankData) :
    (dispatch i s).mission_completed = s.mission_completed := by
  unfold dispatch climb_start build_path return_start restart_without_terrain
  dsimp only
  repeat' split
  all_goals rfl

/-- The behavior switch only ever raises the `mission_completed` latch. -/
theorem behave_mc (i : TickInput) (s : FrankData)
    (h : s.mission_completed = true) :
    (behave i s).mission_completed = true := by
  unfold behave
  split
  · exact climb_return_run_mc _ _ h
  · exact climb_return_run_mc _ _ h
  · exact climb_return_run_mc _ _ h
  · rw [(loiterathome_run_frame _ _).2.2]
    exact h
  · rw [(descent_run_frame _ _).2.2]
    exact h
  · rw [(land_run_frame _ _).2.2]
    exact h

/-- The behavior switch keeps the cursor within 0..13 and never lowers
it. -/
theorem behave_index (i : TickInput) (s : FrankData)
    (h : s.mission_index ≤ 13) :
    (behave i s).mission_index ≤ 13 ∧
      s.mission_index ≤ (behave i s).mission_index := by
  unfold behave
  split
  · have hs' : ({ s with _state := FrankState.Frank_InitialClimb } :
        FrankData).mission_index = s.mission_index := rfl
    rcases climb_return_run_index i
        { s with _state := FrankState.Frank_InitialClimb } with hE | ⟨hE, hlt⟩
    · rw [hE, hs']
      exact ⟨h, le_refl _⟩
    · rw [hs'] at hlt
      rw [hE, hs']
      exact ⟨by omega, by omega⟩
  · rcases climb_return_run_index i s with hE | ⟨hE, hlt⟩
    · rw [hE]
      exact ⟨h, le_refl _⟩
    · rw [hE]
      exact ⟨by omega, by omega⟩
  · rcases climb_return_run_index i s with hE | ⟨hE, hlt⟩
    · rw [hE]
      exact ⟨h, le_refl _⟩
    · rw [hE]
      exact ⟨by omega, by omega⟩
  · rw [(loiterathome_run_frame i s).2.1]
    exact ⟨h, le_refl _⟩
  · rw [(descent_run_frame i s).2.1]
    exact ⟨h, le_refl _⟩
  · rw [(land_run_frame i s).2.1]
    exact ⟨h, le_refl _⟩

/-- The dispatch switch keeps the cursor within 0..13, and can only lower
it when it runs the climb-phase entry from Starting. -/
theorem dispatch_index (i : TickInput) (s : FrankData)
    (h : s.mission_index ≤ 13) :
    (dispatch i s).mission_index ≤ 13 ∧
      ((dispatch i s).mission_index < s.mission_index →
        s._state = FrankState.Frank_Starting) := by
  unfold dispatch
  split
  · next hs =>
      refine ⟨?_, fun _ => hs⟩
      rcases climb_start_index i (build_path i.env s) with hE | hE <;> rw [hE]
      · omega
      · exact h
  · refine ⟨?_, fun hlt => ?_⟩
    · have h13 := return_start_index i s
      omega
    · have h13 := return_start_index i s
      exfalso
      omega
  · exact ⟨h, fun hlt => absurd hlt (lt_irrefl _)⟩
  · split
    · exact ⟨h, fun hlt => absurd hlt (lt_irrefl _)⟩
    · exact ⟨h, fun hlt => absurd hlt (lt_irrefl _)⟩
  · exact ⟨h, fun hlt => absurd hlt (lt_irrefl _)⟩
  · exact ⟨h, fun hlt => absurd hlt (lt_irrefl _)⟩

/-- One operation keeps the cursor within 0..13, and can only lower it by
entering the climb phase. -/
theorem applyOp_index (s : FrankData) (op : Op) (h : s.mission_index ≤ 13) :
    (applyOp s op).mission_index ≤ 13 ∧
      ((applyOp s op).mission_index < s.mission_index → climb_entry s op) := by
  cases op with
  | opInit ig home tf now =>
      dsimp only [applyOp]
      unfold init
      split
      · exact ⟨h, fun hlt => absurd hlt (lt_irrefl _)⟩
      · exact ⟨h, fun hlt => absurd hlt (lt_irrefl _)⟩
  | opRestart =>
      dsimp only [applyOp]
      unfold restart_without_terrain
      split
      · exact ⟨h, fun hlt => absurd hlt (lt_irrefl _)⟩
      · exact ⟨h, fun hlt => absurd hlt (lt_irrefl _)⟩
  | opRun i =>
      dsimp only [applyOp]
      unfold run
      split
      · next ha =>
          split
          · next hc =>
              have hd := dispatch_index i s h
              have hb := behave_index i (dispatch i s) hd.1
              refine ⟨hb.1, fun hlt => ?_⟩
              have h2 : (dispatch i s).mission_index < s.mission_index :=
                lt_of_le_of_lt hb.2 hlt
              exact ⟨ha, hd.2 h2, hc⟩
          · next hc =>
              have hb := behave_index i s h
              exact ⟨hb.1, fun hlt => absurd hlt (not_lt.mpr hb.2)⟩
      · exact ⟨h, fun hlt => absurd hlt (lt_irrefl _)⟩

/-- Any sequence of operations keeps the cursor within 0..13. -/
theorem applyAll_index (s : FrankData) (ops : List Op)
    (h : s.mission_index ≤ 13) : (applyAll s ops).mission_index ≤ 13 := by
  induction ops generalizing s with
  | nil => exact h
  | cons op rest ih => exact ih (applyOp s op) (applyOp_index s op h).1

/-! Claim theorems. -/

/-- C1: the claim states that the altitude stored in
`rtl_path.return_target` by `compute_return_target` is at least
`current_altitude + min_climb` and at least the configured RTL altitude
floor.  The source violates this: after computing the policy altitude
(1200 cm for current altitude 1000 cm and minimum climb 200 cm, terrain,
cone and fence inactive), the final write `rtl_path.return_target.alt =
700;` (line 566) stores 700 < 1200.  This contradicts the function's own
header comment ("return target's altitude is updated to a higher altitude
that the vehicle can safely return at") and the `// ensure we do not
descend` comment directly above the write, so the code, not the claim, is
at fault. -/
theorem frank_C1_code_bug :
    (compute_return_target envC1 false).alt = 700 ∧
    (compute_return_target envC1 false).alt_policy =
      envC1.curr_loc_alt + max 0 envC1.rtl_climb_min ∧
    (compute_return_target envC1 false).alt <
      envC1.curr_loc_alt + max 0 envC1.rtl_climb_min := by
  refine ⟨rfl, by decide, by decide⟩

/-- C2: for every input (current altitude, configured RTL altitude, cone
slope, fence ceiling, terrain availability), the altitude
`compute_return_target` finally stores in `rtl_path.return_target.alt` is
the fixed constant 700: the last write of the function overwrites the
policy-driven result unconditionally. -/
theorem frank_C2 (e : BuildEnv) (tfa : Bool) :
    (compute_return_target e tfa).alt = 700 := rfl

/-- C3 counterexample: the claim asserts that `climb_return_run` marks the
phase complete only when at least 180 000 ms have elapsed since RTL
activation (`start_time_ms`).  `mission_completed` is a latch that no code
path ever clears, while `init` resets `start_time_ms`; so after a first
RTL whose dwell was satisfied, a re-activation completes the
InitialClimb phase on its very first reached tick.  The history `opsC3`
does exactly that: its final state was produced by a reached tick 100 ms
after the second activation (start 200000, last tick at 200100) yet is
marked complete — destination-reached alone sufficed. -/
theorem frank_C3_counterexample :
    (applyAll frank0 opsC3)._state = FrankState.Frank_InitialClimb ∧
    (applyAll frank0 opsC3)._state_complete = true ∧
    (applyAll frank0 opsC3).start_time_ms = 200000 ∧
    (applyAll frank0 opsC3).mission_completed = true ∧
    opsC3.getLast? = some (Op.opRun { tick0 with now := 200100 }) ∧
    200100 - (applyAll frank0 opsC3).start_time_ms < 180000 := by decide

/-- C3 (amended): provided the `mission_completed` dwell latch is still
clear at the start of the tick (as it is throughout a first activation,
but not after a previous RTL already satisfied the dwell), the sequencer
marks the phase complete exactly when the destination is reached, the
cursor is at the final waypoint, and more than 180 000 ms have elapsed
since activation — in particular neither destination-reached alone nor
elapsed time alone completes the phase. -/
theorem frank_C3 (i : TickInput) (s : FrankData)
    (hmc : s.mission_completed = false)
    (hd : i.disarmed_or_landed = false)
    (hmono : s.start_time_ms ≤ i.now)
    (hw : i.now - s.start_time_ms < 4294967296) :
    (climb_return_run i s)._state_complete = true ↔
      (i.reached = true ∧ 13 ≤ s.mission_index ∧
        s.start_time_ms + 180000 < i.now) := by
  have he : elapsed_ms s.start_time_ms i.now = i.now - s.start_time_ms := by
    unfold elapsed_ms
    omega
  unfold climb_return_run
  rw [hd, if_neg (by simp)]
  split
  · next hA =>
      obtain ⟨h1, _⟩ := hA
      simp only [hmc, Bool.and_false]
      constructor
      · intro hfalse
        cases hfalse
      · rintro ⟨_, h3, _⟩
        omega
  · next hA =>
      split
      · next hB =>
          obtain ⟨h1, h2⟩ := hB
          split
          · next hE =>
              rw [he] at hE
              constructor
              · intro _
                exact ⟨h2, h1, by omega⟩
              · intro _
                show (i.reached && true) = true
                simp [h2]
          · next hE =>
              rw [he] at hE
              simp only [hmc, Bool.and_false]
              constructor
              · intro hfalse
                cases hfalse
              · rintro ⟨_, _, h3⟩
                omega
      · next hB =>
          have hr : i.reached = false := by
            cases hcr : i.reached
            · rfl
            · exfalso
              rcases lt_or_le s.mission_index 13 with h | h
              · exact hA ⟨h, hcr⟩
              · exact hB ⟨h, hcr⟩
          simp only [hr, Bool.false_and]
          constructor
          · intro hfalse
            cases hfalse
          · rintro ⟨h1, _⟩
            exact h1

/-- C3 witness: at the final waypoint with the latch clear, a reached tick
190 000 ms after activation completes the phase. -/
theorem frank_C3_witness :
    (climb_return_run iC3w sC3w)._state_complete = true ↔
      (iC3w.reached = true ∧ 13 ≤ sC3w.mission_index ∧
        sC3w.start_time_ms + 180000 < iC3w.now) :=
  frank_C3 iC3w sC3w rfl rfl (by decide) (by decide)

/-- C4 counterexample: the claim places the arrival boundary at index 12
and asserts that at or past index 12 a reached destination causes no
advance.  In the source the boundary is 13 (`mission_index < 13`, line
198): from index 12 with the destination reached, the sequencer advances
the cursor to 13 and pushes `mission_wp[13]`. -/
theorem frank_C4_counterexample :
    sC4.mission_index = 12 ∧ tick0.reached = true ∧
    tick0.disarmed_or_landed = false ∧
    (climb_return_run tick0 sC4).mission_index = 13 ∧
    (climb_return_run tick0 sC4).wp_dest = mission_wp 13 := by decide

/-- C4 (amended): in the waypoint sequencer, whenever the cursor is below
the arrival boundary index 13 and the destination is reached, the cursor
advances by one and the waypoint at the new index is pushed as the new
navigation destination; at or past index 13 with the destination reached,
no advance occurs and only the dwell policy is evaluated (the
`mission_completed` latch becomes true exactly when it already was true or
the 180 s dwell has elapsed, and the pushed destination is unchanged). -/
theorem frank_C4 (i : TickInput) (s : FrankData)
    (hd : i.disarmed_or_landed = false) :
    (s.mission_index < 13 → i.reached = true →
      (climb_return_run i s).mission_index = s.mission_index + 1 ∧
      (climb_return_run i s).wp_dest = mission_wp (s.mission_index + 1)) ∧
    (13 ≤ s.mission_index → i.reached = true →
      (climb_return_run i s).mission_index = s.mission_index ∧
      (climb_return_run i s).wp_dest = s.wp_dest ∧
      ((climb_return_run i s).mission_completed = true ↔
        (s.mission_completed = true ∨
          180000 < elapsed_ms s.start_time_ms i.now))) := by
  unfold climb_return_run
  rw [hd]
  constructor
  · intro hlt hr
    rw [if_neg (by simp), if_pos ⟨hlt, hr⟩]
    exact ⟨rfl, rfl⟩
  · intro hge hr
    rw [if_neg (by simp), if_neg (by omega), if_pos ⟨hge, hr⟩]
    split
    · simp_all
    · simp_all

/-- C4 witness: a concrete below-boundary advance from index 0. -/
theorem frank_C4_witness :
    (frank0.mission_index < 13 → tick0.reached = true →
      (climb_return_run tick0 frank0).mission_index = frank0.mission_index + 1 ∧
      (climb_return_run tick0 frank0).wp_dest = mission_wp (frank0.mission_index + 1)) ∧
    (13 ≤ frank0.mission_index → tick0.reached = true →
      (climb_return_run tick0 frank0).mission_index = frank0.mission_index ∧
      (climb_return_run tick0 frank0).wp_dest = frank0.wp_dest ∧
      ((climb_return_run tick0 frank0).mission_completed = true ↔
        (frank0.mission_completed = true ∨
          180000 < elapsed_ms frank0.start_time_ms tick0.now))) :=
  frank_C4 tick0 frank0 (by decide)

/-- C9 counterexample: the claim states the fence clamp never produces a
negative altitude, including in the above-terrain frame.  With the
return-target altitude stored as 500 cm above terrain, the terrain at the
return point 101 m above home and a 100 m fence ceiling, the clamp reduces
the stored altitude by the above-home overage (10600 - 10000 = 600 cm) and
stores -100 cm. -/
theorem frank_C9_counterexample :
    fence_step AltFrame.ABOVE_TERRAIN 500 fenvC9 = -100 ∧
    fence_step AltFrame.ABOVE_TERRAIN 500 fenvC9 < 0 := by
  have h : fence_step AltFrame.ABOVE_TERRAIN 500 fenvC9 = -100 := by
    unfold fence_step fenvC9
    rw [if_pos rfl, if_neg (by decide), if_pos rfl, if_pos (by push_cast; norm_num)]
    have harg : ((500 : Int) : ℚ) - ((((500 : Int) + 10100 : Int) : ℚ) - (10000 : ℚ))
        = ((-100 : ℤ) : ℚ) := by push_cast; ring
    rw [harg, ftrunc_intCast]
  exact ⟨h, by rw [h]; decide⟩

/-- C9 (amended): the fence-clamping step never increases the
return-target altitude; and when the altitude is stored in the above-home
frame (so the value compared against the fence ceiling is the stored value
itself), a non-negative input altitude and a non-negative fence ceiling
always produce a non-negative result.  In the above-terrain frame the
result can be negative (see the counterexample). -/
theorem frank_C9 (frame : AltFrame) (alt : Int) (e : FenceEnv) :
    fence_step frame alt e ≤ alt ∧
      (frame = AltFrame.ABOVE_HOME → 0 ≤ alt → 0 ≤ e.fence_alt →
        0 ≤ fence_step frame alt e) := by
  constructor
  · unfold fence_step
    split
    · split
      · split
        · next h =>
            apply ftrunc_le_intCast
            linarith
        · exact le_rfl
      · split
        · split
          · next h =>
              apply ftrunc_le_intCast
              push_cast at h ⊢
              linarith
          · exact le_rfl
        · exact le_rfl
    · exact le_rfl
  · intro hf h0 hfa
    unfold fence_step
    rw [hf]
    split
    · rw [if_pos rfl]
      split
      · apply ftrunc_nonneg
        linarith
      · exact h0
    · exact h0

/-- C9 witness: the clamp at work in the above-home frame: altitude
12000 cm against a 100 m ceiling is reduced, never increased, and stays
non-negative. -/
theorem frank_C9_witness :
    fence_step AltFrame.ABOVE_HOME 12000 fenvC9 ≤ 12000 ∧
      (AltFrame.ABOVE_HOME = AltFrame.ABOVE_HOME → 0 ≤ (12000 : Int) →
        0 ≤ fenvC9.fence_alt → 0 ≤ fence_step AltFrame.ABOVE_HOME 12000 fenvC9) :=
  frank_C9 AltFrame.ABOVE_HOME 12000 fenvC9

/-- C5: under every sequence of operations (activations, run ticks,
terrain restarts) from a state whose cursor is within 0..13, the cursor
stays within 0..13 (list length 14 minus one); a single operation can only
lower the cursor by entering the climb phase (the tick in which
`climb_start` runs), and `climb_start` with an accepted destination resets
the cursor to 0. -/
theorem frank_C5 (s : FrankData) (ops : List Op) (h : s.mission_index ≤ 13) :
    (applyAll s ops).mission_index ≤ 13 ∧
    (∀ (s' : FrankData) (op : Op), s'.mission_index ≤ 13 →
      (applyOp s' op).mission_index < s'.mission_index → climb_entry s' op) ∧
    (∀ (i : TickInput) (s' : FrankData), i.set_dest_ok = true →
      (climb_start i s').mission_index = 0) :=
  ⟨applyAll_index s ops h,
   fun s' op h' hlt => (applyOp_index s' op h').2 hlt,
   fun i s' hok => climb_start_index_zero i s' hok⟩

/-- C5 witness: one armed tick from a fresh instance. -/
theorem frank_C5_witness :
    (applyAll frank0 [Op.opRun tick0]).mission_index ≤ 13 ∧
    (∀ (s' : FrankData) (op : Op), s'.mission_index ≤ 13 →
      (applyOp s' op).mission_index < s'.mission_index → climb_entry s' op) ∧
    (∀ (i : TickInput) (s' : FrankData), i.set_dest_ok = true →
      (climb_start i s').mission_index = 0) :=
  frank_C5 frank0 [Op.opRun tick0] (by decide)

/-- C6: when `run` dispatches the transition out of a completed
LoiterAtHome phase, it enters the Land phase iff `rtl_path.land` is true
or the radio failsafe flag is set, and otherwise enters FinalDescent; and
`build_path` sets `land` true iff the configured final RTL altitude
`g.rtl_alt_final` is non-positive. -/
theorem frank_C6 (i : TickInput) (s : FrankData)
    (ha : i.armed = true) (hs : s._state = FrankState.Frank_LoiterAtHome)
    (hc : s._state_complete = true) :
    ((run i s)._state = FrankState.Frank_Land ↔
      (s.rtl_path.land = true ∨ i.radio_failsafe = true)) ∧
    ((run i s)._state = FrankState.Frank_Land ∨
      (run i s)._state = FrankState.Frank_FinalDescent) ∧
    (∀ (e : BuildEnv) (s' : FrankData),
      (build_path e s').rtl_path.land = true ↔ e.rtl_alt_final ≤ 0) := by
  have hrun : run i s = behave i (dispatch i s) := by
    unfold run
    rw [if_pos ha, if_pos hc]
  have hdisp : dispatch i s =
      (if s.rtl_path.land = true ∨ i.radio_failsafe = true then land_start s
       else descent_start s) := by
    unfold dispatch
    rw [hs]
  by_cases hl : s.rtl_path.land = true ∨ i.radio_failsafe = true
  · have hland : run i s = land_run i (land_start s) := by
      rw [hrun, hdisp, if_pos hl]
      rfl
    have hstate : (run i s)._state = FrankState.Frank_Land := by
      rw [hland, (land_run_frame i (land_start s)).1]
      rfl
    exact ⟨iff_of_true hstate hl, Or.inl hstate,
      fun e s' => build_path_land e s'⟩
  · have hdesc : run i s = descent_run i (descent_start s) := by
      rw [hrun, hdisp, if_neg hl]
      rfl
    have hstate : (run i s)._state = FrankState.Frank_FinalDescent := by
      rw [hdesc, (descent_run_frame i (descent_start s)).1]
      rfl
    refine ⟨?_, Or.inr hstate, fun e s' => build_path_land e s'⟩
    rw [hstate]
    exact iff_of_false (by simp) hl

/-- C6 witness: a completed LoiterAtHome state with the land flag set
enters Land. -/
theorem frank_C6_witness :
    ((run tick0 sC6)._state = FrankState.Frank_Land ↔
      (sC6.rtl_path.land = true ∨ tick0.radio_failsafe = true)) ∧
    ((run tick0 sC6)._state = FrankState.Frank_Land ∨
      (run tick0 sC6)._state = FrankState.Frank_FinalDescent) ∧
    (∀ (e : BuildEnv) (s' : FrankData),
      (build_path e s').rtl_path.land = true ↔ e.rtl_alt_final ≤ 0) :=
  frank_C6 tick0 sC6 rfl rfl rfl

/-- C7: `restart_without_terrain` on a path that did not use
terrain-relative altitudes returns the state unchanged in every field and
emits no operator notification; on a terrain-using path it clears
`terrain_following_allowed`, resets the phase to Starting with completion
forced, emits the notification, and leaves the path, cursor, latch and
timers untouched. -/
theorem frank_C7 (s : FrankData) :
    (s.rtl_path.terrain_used = false → restart_without_terrain s = (s, false)) ∧
    (s.rtl_path.terrain_used = true →
      (restart_without_terrain s).2 = true ∧
      (restart_without_terrain s).1._state = FrankState.Frank_Starting ∧
      (restart_without_terrain s).1._state_complete = true ∧
      (restart_without_terrain s).1.terrain_following_allowed = false ∧
      (restart_without_terrain s).1.start_time_ms = s.start_time_ms ∧
      (restart_without_terrain s).1.mission_index = s.mission_index ∧
      (restart_without_terrain s).1.mission_completed = s.mission_completed ∧
      (restart_without_terrain s).1._loiter_start_time = s._loiter_start_time ∧
      (restart_without_terrain s).1.rtl_path = s.rtl_path ∧
      (restart_without_terrain s).1.wp_dest = s.wp_dest) := by
  constructor
  · intro h
    unfold restart_without_terrain
    rw [h, if_neg (by simp)]
  · intro h
    unfold restart_without_terrain
    rw [h, if_pos rfl]
    exact ⟨rfl, rfl, rfl, rfl, rfl, rfl, rfl, rfl, rfl, rfl⟩

/-- C7 witness: a fresh instance (terrain not used) is left untouched. -/
theorem frank_C7_witness :
    (frank0.rtl_path.terrain_used = false →
      restart_without_terrain frank0 = (frank0, false)) ∧
    (frank0.rtl_path.terrain_used = true →
      (restart_without_terrain frank0).2 = true ∧
      (restart_without_terrain frank0).1._state = FrankState.Frank_Starting ∧
      (restart_without_terrain frank0).1._state_complete = true ∧
      (restart_without_terrain frank0).1.terrain_following_allowed = false ∧
      (restart_without_terrain frank0).1.start_time_ms = frank0.start_time_ms ∧
      (restart_without_terrain frank0).1.mission_index = frank0.mission_index ∧
      (restart_without_terrain frank0).1.mission_completed = frank0.mission_completed ∧
      (restart_without_terrain frank0).1._loiter_start_time = frank0._loiter_start_time ∧
      (restart_without_terrain frank0).1.rtl_path = frank0.rtl_path ∧
      (restart_without_terrain frank0).1.wp_dest = frank0.wp_dest) :=
  frank_C7 frank0

/-- C8: `init` returns not-ready exactly when no home reference is set and
checks are not bypassed; on every successful return it resets the phase to
Starting with `_state_complete = true`, records
`terrain_following_allowed` as the negation of the terrain-failsafe flag,
and records the activation time. -/
theorem frank_C8 (ig home tf : Bool) (now : Nat) (s : FrankData) :
    (init ig home tf now s = none ↔ (ig = false ∧ home = false)) ∧
    (∀ s', init ig home tf now s = some s' →
      s'._state = FrankState.Frank_Starting ∧
      s'._state_complete = true ∧
      s'.terrain_following_allowed = !tf ∧
      s'.start_time_ms = now) := by
  constructor
  · unfold init
    split
    · next h => simp [h]
    · next h => simp [h]
  · intro s' hs'
    unfold init at hs'
    split at hs'
    · exact Option.noConfusion hs'
    · injection hs' with hs'
      subst hs'
      exact ⟨rfl, rfl, rfl, rfl⟩

/-- C8 witness: a successful activation with home set at t=5. -/
theorem frank_C8_witness :
    (init false true false 5 frank0 = none ↔ (false = false ∧ true = false)) ∧
    (∀ s', init false true false 5 frank0 = some s' →
      s'._state = FrankState.Frank_Starting ∧
      s'._state_complete = true ∧
      s'.terrain_following_allowed = !false ∧
      s'.start_time_ms = 5) :=
  frank_C8 false true false 5 frank0

/-- C10: neither `init` nor `climb_start` resets the `mission_completed`
latch; once true it stays true under every operation; and with the latch
set, any armed and airborne sequencer tick whose destination is reported
reached marks the phase complete — no new 180 s dwell is required. -/
theorem frank_C10 :
    (∀ (ig home tf : Bool) (now : Nat) (s s' : FrankData),
      init ig home tf now s = some s' →
      s'.mission_completed = s.mission_completed) ∧
    (∀ (i : TickInput) (s : FrankData),
      (climb_start i s).mission_completed = s.mission_completed) ∧
    (∀ (s : FrankData) (op : Op), s.mission_completed = true →
      (applyOp s op).mission_completed = true) ∧
    (∀ (i : TickInput) (s : FrankData), s.mission_completed = true →
      i.disarmed_or_landed = false → i.reached = true →
      (climb_return_run i s)._state_complete = true) := by
  refine ⟨?_, ?_, ?_, ?_⟩
  · intro ig home tf now s s' hs'
    unfold init at hs'
    split at hs'
    · exact Option.noConfusion hs'
    · injection hs' with hs'
      subst hs'
      rfl
  · intro i s
    unfold climb_start
    split
    · rfl
    · rfl
  · intro s op h
    cases op with
    | opInit ig home tf now =>
        dsimp only [applyOp]
        unfold init
        split
        · exact h
        · exact h
    | opRestart =>
        dsimp only [applyOp]
        unfold restart_without_terrain
        split
        · exact h
        · exact h
    | opRun i =>
        dsimp only [applyOp]
        unfold run
        split
        · apply behave_mc
          split
          · rw [dispatch_mc]
            exact h
          · exact h
        · exact h
  · intro i s h hd hr
    unfold climb_return_run
    rw [hd, if_neg (by simp)]
    split
    · show (i.reached && s.mission_completed) = true
      rw [hr, h]
      rfl
    · split
      · split
        · show (i.reached && true) = true
          rw [hr]
          rfl
        · show (i.reached && s.mission_completed) = true
          rw [hr, h]
          rfl
      · show (i.reached && s.mission_completed) = true
        rw [hr, h]
        rfl

/-- C10 witness: with the latch already set, a reached tick at t=0 (no
dwell elapsed at all in this activation) completes the phase. -/
theorem frank_C10_witness :
    (climb_return_run tick0 sC10)._state_complete = true :=
  frank_C10.2.2.2 tick0 sC10 rfl rfl rfl

end Frank
